import Mathlib

/-!
# server.js - read-through cache of the location aggregator

A shallow embedding of `src/server.js`: the model constructors (`Location`, `Weather`,
`Yelp`, `Movie`, `Meetup`, `Trails`), their `save` / `fetch` / `lookup` functions and the
route handlers `getLocation`, `getWeather`, `getYelp`, `getMovie`, `getMeetup`, `getTrails`.

Conventions of the embedding

* A JS object is the list of its own properties in insertion order (`Obj`); a property read
  that finds nothing yields `undefined` (`Val.undefined`), and `Object.values` is the list of the
  second components.
* The database behind `client` is explicit state (`Store`), threaded through every function.
  One request runs to completion, with all the queries it queued settled, before the next
  one starts.
* Everything the program receives from outside is an explicit argument: what a provider call
  settles to, whether the database answers a query, the reading of `Date.now()`, and the
  date rendering of the host (`Date.prototype.toString`, `toDateString`).
* A promise that settles is an `Except Err _`; a handler that sends nothing leaves the
  response `none`.
-/

namespace Server

/-! ## Values and objects -/

/-- The JS values that flow through the program. Numbers are integers: the only arithmetic
    in the program is `time * 1000`, every other number is copied. -/
inductive Val where
  | undefined
  | null
  | str (s : String)
  | num (n : Int)
  deriving DecidableEq, Repr

/-- JS string conversion of a value, as done by `'...' + x`. -/
def Val.toJsString : Val → String
  | .undefined => "undefined"
  | .null => "null"
  | .str s => s
  | .num n => toString n

/-- The call `s.slice(0, n)`: the first `n` characters of the string. -/
def slice (s : String) (n : Nat) : String := ⟨s.toList.take n⟩

/-- A JS object: its own properties, in insertion order. -/
abbrev Obj := List (String × Val)

/-- Property read `o.k`: `undefined` when the object has no such property. -/
def Obj.get (o : Obj) (k : String) : Val :=
  match o.find? (fun p => p.1 = k) with
  | some p => p.2
  | none => .undefined

/-- Result of `Object.values(o)`. -/
def Obj.values (o : Obj) : List Val := o.map Prod.snd

/-- Property write `o.k = v`: replaces the property when present, appends it otherwise. -/
def Obj.set (o : Obj) (k : String) (v : Val) : Obj :=
  if o.any (fun p => p.1 = k) then o.map (fun p => if p.1 = k then (k, v) else p)
  else o ++ [(k, v)]

/-- What a rejected promise carries. -/
inductive Err where
  | noData                          -- throw 'No Data'
  | upstream                        -- the provider request was rejected
  | storage                         -- client.query was rejected
  | typeError                       -- a property read on undefined
  | referenceError (name : String)  -- a variable that is bound nowhere
  deriving DecidableEq, Repr

/-! ## The store behind `client.query` -/

/-- The database: the rows of each table, oldest first, and the next value of the id
    sequence of `locations`. -/
structure Store where
  tables : String → List Obj
  serial : Nat

/-- The database with no rows at all. -/
def Store.empty : Store := ⟨fun _ => [], 1⟩

/-- An `INSERT INTO table (columns) VALUES ($1, ..., $placeholders) [RETURNING id]`. -/
structure InsertSQL where
  table : String
  columns : List String
  placeholders : Nat
  returningId : Bool
  deriving DecidableEq, Repr

/-- A `SELECT * FROM table WHERE column=$1`. -/
structure SelectSQL where
  table : String
  column : String
  deriving DecidableEq, Repr

/-- How the driver sends a parameter: `undefined` goes out as NULL. -/
def sqlParam : Val → Val
  | .undefined => .null
  | v => v

/-- Whether the statement fits its parameters: as many parameters as placeholders, and as many
    value expressions as target columns. -/
def InsertSQL.fits (sql : InsertSQL) (values : List Val) : Bool :=
  values.length = sql.placeholders && sql.columns.length = sql.placeholders

/-- The call `client.query(SQL, values)` for an insert. `up` says whether the database answers
    this query at all (connection, constraints). A statement that does not fit its parameters
    is rejected and nothing is written. An accepted insert appends one row; with
    `RETURNING id` the row gets the next id and the result rows are `[{id}]`. -/
def Store.insert (s : Store) (sql : InsertSQL) (values : List Val) (up : Bool) :
    Except Err (List Obj) × Store :=
  if up && sql.fits values then
    let row : Obj := sql.columns.zip (values.map sqlParam)
    if sql.returningId then
      let id : Val := .num s.serial
      (.ok [[("id", id)]],
        ⟨fun t => if t = sql.table then s.tables t ++ [("id", id) :: row] else s.tables t,
          s.serial + 1⟩)
    else
      (.ok [], ⟨fun t => if t = sql.table then s.tables t ++ [row] else s.tables t, s.serial⟩)
  else (.error .storage, s)

/-- SQL equality in a `WHERE column=$1`: NULL equals nothing. -/
def sqlEq (a b : Val) : Bool :=
  a ≠ .null && b ≠ .null && a = b

/-- The call `client.query(SQL, [value])` for a select: the rows of the table whose column
    equals the parameter, in table order. -/
def Store.select (s : Store) (sql : SelectSQL) (value : Val) (up : Bool) :
    Except Err (List Obj) :=
  if up then
    .ok ((s.tables sql.table).filter (fun r => sqlEq (sqlParam (r.get sql.column)) (sqlParam value)))
  else .error .storage

/-! ## Responses and outcomes -/

/-- What a handler sends back. -/
inductive Response where
  | sendObj (o : Obj)          -- response.send(object)
  | sendList (os : List Obj)   -- response.send(array)
  | status500 (msg : String)   -- res.status(500).send(msg)
  deriving DecidableEq, Repr

/-- Which callback of the handler the lookup called. -/
inductive Branch where
  | cacheHit
  | cacheMiss
  deriving DecidableEq, Repr

/-- One finished request: the response sent (if any), the store afterwards, the number of
    provider requests issued and the branch the lookup took (if it took one). -/
structure Outcome where
  response : Option Response
  store : Store
  providerCalls : Nat
  branch : Option Branch

/-- The object handed to a lookup: its two callbacks. -/
structure Handler where
  cacheHit : List Obj → Outcome
  cacheMiss : Unit → Outcome

/-- The function `handleError(err, res)`: logs, and answers 500 when it was given a response. -/
def handleError (res : Option Unit) : Option Response :=
  match res with
  | some _ => some (.status500 "Sorry, something went wrong")
  | none => none

/-- The host's rendering of dates: `new Date(ms).toString()` and `new Date(ms).toDateString()`,
    both in the host's time zone. -/
structure Host where
  dateToString : Int → String
  dateToDateString : Int → String

/-- What one request meets outside the program. -/
structure Env (α : Type) where
  /-- what the provider request settles to: `none` when it is rejected, else the top-level
      array of the body -/
  provider : Option (List α)
  /-- whether the database answers the lookup query -/
  lookupUp : Bool
  /-- whether the database answers the query of the k-th save of this request -/
  saveUp : Nat → Bool
  /-- the reading of `Date.now()` at the k-th construction of this request -/
  clock : Nat → Int

/-! ## Location -/

/-- One entry of `body.results` of the geocoding provider; `lat` and `lng` stand for
    `geometry.location.lat` and `geometry.location.lng`. -/
structure GeoResult where
  formatted_address : Val
  lat : Val
  lng : Val
  deriving DecidableEq, Repr

/-- The constructor `Location(query, data)`. -/
def Location (query : String) (data : GeoResult) : Obj :=
  [("search_query", .str query),
   ("formatted_query", data.formatted_address),
   ("latitude", data.lat),
   ("longitude", data.lng)]

/-- The statement of `Location.prototype.save`. -/
def Location.saveSQL : InsertSQL :=
  ⟨"locations", ["search_query", "formatted_query", "latitude", "longitude"], 4, true⟩

/-- The method `Location.prototype.save`: returns the promise of the query. -/
def Location.save (this : Obj) (up : Bool) (s : Store) : Except Err (List Obj) × Store :=
  s.insert Location.saveSQL (Obj.values this) up

/-- The function `Location.fetchLocation`. Its final `.catch(error => handleError(error, res))`
    names `res`, which is bound nowhere in the file: evaluating the argument throws a
    ReferenceError before `handleError` is entered, so every failure of the chain leaves the
    returned promise rejected with that ReferenceError. -/
def Location.fetchLocation (env : Env GeoResult) (query : String) (s : Store) :
    Except Err Obj × Store :=
  let chain : Except Err Obj × Store :=
    match env.provider with
    | none => (.error .upstream, s)
    | some [] => (.error .noData, s)
    | some (first :: _) =>
      let location := Location query first
      match Location.save location (env.saveUp 0) s with
      | (.error e, s1) => (.error e, s1)
      | (.ok rows, s1) =>
        match rows.head? with
        | some r => (.ok (Obj.set location "id" (r.get "id")), s1)
        | none => (.error .typeError, s1)
  match chain with
  | (.error _, s1) => (.error (.referenceError "res"), s1)
  | (.ok location, s1) => (.ok location, s1)

/-- The statement of `Location.lookupLocation`. -/
def Location.lookupSQL : SelectSQL := ⟨"locations", "search_query"⟩

/-- The function `Location.lookupLocation`: a rejected query is logged and nothing else
    happens. -/
def Location.lookupLocation (query : String) (handler : Handler) (up : Bool) (s : Store) :
    Outcome :=
  match s.select Location.lookupSQL (.str query) up with
  | .ok rows => if rows.length > 0 then handler.cacheHit rows else handler.cacheMiss ()
  | .error _ => ⟨none, s, 0, none⟩

/-- The handler `getLocation`; `query` is the search string `request.query.data`. On a hit
    it sends `results.rows[0]`. On a miss it sends what `fetchLocation` resolves to; when that
    promise is rejected, its `.catch(error => handleError(error, res))` again names the
    unbound `res`, so nothing is sent. -/
def getLocation (env : Env GeoResult) (query : String) (s : Store) : Outcome :=
  Location.lookupLocation query
    ⟨fun rows => ⟨(rows.head?).map Response.sendObj, s, 0, some .cacheHit⟩,
     fun _ =>
      match Location.fetchLocation env query s with
      | (.ok data, s1) => ⟨some (.sendObj data), s1, 1, some .cacheMiss⟩
      | (.error _, s1) => ⟨none, s1, 1, some .cacheMiss⟩⟩
    env.lookupUp s

/-- The quiet environment for tests: the provider answers `rs`, the database answers. -/
def Env.answering {α : Type} (rs : List α) : Env α :=
  ⟨some rs, true, fun _ => true, fun _ => 0⟩


/-! ## The five categories -/

/-- The loop `raws.map(data => { const summary = new C(data); summary.save(location.id);
    return summary; })` shared by the five `fetch` functions: the k-th record is built, its
    save is queued, and the record goes into the result whatever the save does. -/
def mapSave {α : Type} (ctor : Nat → α → Obj) (save : Obj → Val → Bool → Store → Store)
    (id : Val) (up : Nat → Bool) : Nat → List α → Store → List Obj × Store
  | _, [], s => ([], s)
  | k, data :: rest, s =>
    let summary := ctor k data
    let s1 := save summary id (up k) s
    let r := mapSave ctor save id up (k + 1) rest s1
    (summary :: r.1, r.2)

/-- The handler object built by each of the five category routes: a hit sends `result.rows`,
    a miss sends what `fetch` resolves to, and a rejected `fetch` is only logged
    (`.catch(console.error)`). -/
def categoryHandler (fetch : Store → Except Err (List Obj) × Store) (s : Store) : Handler :=
  ⟨fun rows => ⟨some (.sendList rows), s, 0, some .cacheHit⟩,
   fun _ =>
    match fetch s with
    | (.ok results, s1) => ⟨some (.sendList results), s1, 1, some .cacheMiss⟩
    | (.error _, s1) => ⟨none, s1, 1, some .cacheMiss⟩⟩

/-! ### Weather -/

/-- One entry of `body.daily.data`. -/
structure Day where
  summary : Val
  time : Int
  deriving DecidableEq, Repr

/-- The constructor `Weather(day)`. -/
def Weather (h : Host) (day : Day) : Obj :=
  [("forecast", day.summary),
   ("time", .str (slice (h.dateToString (day.time * 1000)) 15))]

/-- The statement of `Weather.prototype.save`. -/
def Weather.saveSQL : InsertSQL := ⟨"weathers", ["forecast", "time", "location_id"], 3, false⟩

/-- The method `Weather.prototype.save`: the promise of the query is dropped. -/
def Weather.save (this : Obj) (id : Val) (up : Bool) (s : Store) : Store :=
  (s.insert Weather.saveSQL (Obj.values this ++ [id]) up).2

/-- The function `Weather.fetch`. -/
def Weather.fetch (h : Host) (env : Env Day) (location : Obj) (s : Store) :
    Except Err (List Obj) × Store :=
  match env.provider with
  | none => (.error .upstream, s)
  | some days =>
    let r := mapSave (fun _ day => Weather h day) Weather.save (location.get "id") env.saveUp 0 days s
    (.ok r.1, r.2)

/-- The statement of `Weather.lookup`. -/
def Weather.lookupSQL : SelectSQL := ⟨"weathers", "location_id"⟩

/-- The function `Weather.lookup`: a rejected query goes to `handleError(error)`, which has no
    response to answer on. -/
def Weather.lookup (location : Obj) (handler : Handler) (up : Bool) (s : Store) : Outcome :=
  match s.select Weather.lookupSQL (location.get "id") up with
  | .ok rows => if rows.length > 0 then handler.cacheHit rows else handler.cacheMiss ()
  | .error _ => ⟨handleError none, s, 0, none⟩

/-- The handler `getWeather`. -/
def getWeather (h : Host) (env : Env Day) (location : Obj) (s : Store) : Outcome :=
  Weather.lookup location (categoryHandler (Weather.fetch h env location) s) env.lookupUp s

/-! ### Yelp -/

/-- One entry of `body.businesses`. -/
structure Business where
  name : Val
  rating : Val
  price : Val
  url : Val
  image_url : Val
  deriving DecidableEq, Repr

/-- The constructor `Yelp(businesses)`. -/
def Yelp (businesses : Business) : Obj :=
  [("name", businesses.name),
   ("rating", businesses.rating),
   ("price", businesses.price),
   ("url", businesses.url),
   ("image_url", businesses.image_url)]

/-- The statement of `Yelp.prototype.save`. -/
def Yelp.saveSQL : InsertSQL :=
  ⟨"yelps", ["name", "rating", "price", "url", "image_url"], 5, false⟩

/-- The method `Yelp.prototype.save`. -/
def Yelp.save (this : Obj) (id : Val) (up : Bool) (s : Store) : Store :=
  (s.insert Yelp.saveSQL (Obj.values this ++ [id]) up).2

/-- The function `Yelp.fetch`. -/
def Yelp.fetch (env : Env Business) (location : Obj) (s : Store) :
    Except Err (List Obj) × Store :=
  match env.provider with
  | none => (.error .upstream, s)
  | some businesses =>
    let r := mapSave (fun _ b => Yelp b) Yelp.save (location.get "id") env.saveUp 0 businesses s
    (.ok r.1, r.2)

/-- The statement of `Yelp.lookup`. -/
def Yelp.lookupSQL : SelectSQL := ⟨"yelps", "name"⟩

/-- The function `Yelp.lookup`: a rejected query is caught by nothing. -/
def Yelp.lookup (location : Obj) (handler : Handler) (up : Bool) (s : Store) : Outcome :=
  match s.select Yelp.lookupSQL (location.get "id") up with
  | .ok rows => if rows.length > 0 then handler.cacheHit rows else handler.cacheMiss ()
  | .error _ => ⟨none, s, 0, none⟩

/-- The handler `getYelp`. -/
def getYelp (env : Env Business) (location : Obj) (s : Store) : Outcome :=
  Yelp.lookup location (categoryHandler (Yelp.fetch env location) s) env.lookupUp s

/-! ### Movie -/

/-- One entry of `body.results` of the movie provider. -/
structure MovieData where
  title : Val
  popularity : Val
  released_on : Val
  creation : Val
  poster_path : Val
  deriving DecidableEq, Repr

/-- The constructor `Movie(data)`. -/
def Movie (data : MovieData) : Obj :=
  [("title", data.title),
   ("popularity", data.popularity),
   ("released_on", data.released_on),
   ("creation", data.creation),
   ("image_url", .str ("https://image.tmdb.org/t/p/w370_and_h556_bestv2/" ++ data.poster_path.toJsString))]

/-- The statement of `Movie.prototype.save`. -/
def Movie.saveSQL : InsertSQL :=
  ⟨"moviedbs", ["title", "popularity", "released_on", "image_url"], 4, false⟩

/-- The method `Movie.prototype.save`. -/
def Movie.save (this : Obj) (id : Val) (up : Bool) (s : Store) : Store :=
  (s.insert Movie.saveSQL (Obj.values this ++ [id]) up).2

/-- The statement of `Movie.lookup`. -/
def Movie.lookupSQL : SelectSQL := ⟨"moviesdbs", "title"⟩

/-- The function `Movie.lookup`. -/
def Movie.lookup (location : Obj) (handler : Handler) (up : Bool) (s : Store) : Outcome :=
  match s.select Movie.lookupSQL (location.get "id") up with
  | .ok rows => if rows.length > 0 then handler.cacheHit rows else handler.cacheMiss ()
  | .error _ => ⟨none, s, 0, none⟩

/-- The function `Movie.fetch`. -/
def Movie.fetch (env : Env MovieData) (location : Obj) (s : Store) :
    Except Err (List Obj) × Store :=
  match env.provider with
  | none => (.error .upstream, s)
  | some results =>
    let r := mapSave (fun _ d => Movie d) Movie.save (location.get "id") env.saveUp 0 results s
    (.ok r.1, r.2)

/-- The handler `getMovie`. -/
def getMovie (env : Env MovieData) (location : Obj) (s : Store) : Outcome :=
  Movie.lookup location (categoryHandler (Movie.fetch env location) s) env.lookupUp s

/-! ### Meetup -/

/-- One entry of `body.results` of the meetup provider. -/
structure MeetupData where
  link : Val
  name : Val
  created : Int
  host : Val
  deriving DecidableEq, Repr

/-- The constructor `Meetup(data)`. -/
def Meetup (h : Host) (data : MeetupData) : Obj :=
  [("link", data.link),
   ("name", data.name),
   ("creation_date", .str (h.dateToDateString (data.created * 1000))),
   ("host", data.host)]

/-- The statement of `Meetup.prototype.save`. -/
def Meetup.saveSQL : InsertSQL :=
  ⟨"meetups", ["link", "name", "creation_date", "host"], 4, false⟩

/-- The method `Meetup.prototype.save`. -/
def Meetup.save (this : Obj) (id : Val) (up : Bool) (s : Store) : Store :=
  (s.insert Meetup.saveSQL (Obj.values this ++ [id]) up).2

/-- The statement of `Meetup.lookup`. -/
def Meetup.lookupSQL : SelectSQL := ⟨"meetups", "link"⟩

/-- The function `Meetup.lookup`. -/
def Meetup.lookup (location : Obj) (handler : Handler) (up : Bool) (s : Store) : Outcome :=
  match s.select Meetup.lookupSQL (location.get "id") up with
  | .ok rows => if rows.length > 0 then handler.cacheHit rows else handler.cacheMiss ()
  | .error _ => ⟨none, s, 0, none⟩

/-- The function `Meetup.fetch`. -/
def Meetup.fetch (h : Host) (env : Env MeetupData) (location : Obj) (s : Store) :
    Except Err (List Obj) × Store :=
  match env.provider with
  | none => (.error .upstream, s)
  | some results =>
    let r := mapSave (fun _ d => Meetup h d) Meetup.save (location.get "id") env.saveUp 0 results s
    (.ok r.1, r.2)

/-- The handler `getMeetup`. -/
def getMeetup (h : Host) (env : Env MeetupData) (location : Obj) (s : Store) : Outcome :=
  Meetup.lookup location (categoryHandler (Meetup.fetch h env location) s) env.lookupUp s

/-! ### Trails -/

/-- One entry of `body.trails`. -/
structure TrailData where
  name : Val
  location : Val
  length : Val
  stars : Val
  starVotes : Val
  summary : Val
  url : Val
  conditions : Val
  deriving DecidableEq, Repr

/-- The constructor `Trails(data)`; `now` is the reading of `Date.now()`. -/
def Trails (now : Int) (data : TrailData) : Obj :=
  [("name", data.name),
   ("location", data.location),
   ("length", data.length),
   ("stars", data.stars),
   ("star_votes", data.starVotes),
   ("summary", data.summary),
   ("trails_url", data.url),
   ("conditions", data.conditions),
   ("created_at", .num now)]

/-- The statement of `Trails.prototype.save`: seven target columns, ten placeholders. -/
def Trails.saveSQL : InsertSQL :=
  ⟨"trails", ["name", "location", "stars", "star_votes", "summary", "trails_url", "created_at"],
    10, false⟩

/-- The method `Trails.prototype.save`. -/
def Trails.save (this : Obj) (id : Val) (up : Bool) (s : Store) : Store :=
  (s.insert Trails.saveSQL (Obj.values this ++ [id]) up).2

/-- The statement of `Trails.lookup`. -/
def Trails.lookupSQL : SelectSQL := ⟨"trails", "name"⟩

/-- The function `Trails.lookup`. -/
def Trails.lookup (location : Obj) (handler : Handler) (up : Bool) (s : Store) : Outcome :=
  match s.select Trails.lookupSQL (location.get "id") up with
  | .ok rows => if rows.length > 0 then handler.cacheHit rows else handler.cacheMiss ()
  | .error _ => ⟨none, s, 0, none⟩

/-- The function `Trails.fetch`. -/
def Trails.fetch (env : Env TrailData) (location : Obj) (s : Store) :
    Except Err (List Obj) × Store :=
  match env.provider with
  | none => (.error .upstream, s)
  | some trails =>
    let r := mapSave (fun k d => Trails (env.clock k) d) Trails.save (location.get "id")
      env.saveUp 0 trails s
    (.ok r.1, r.2)

/-- The handler `getTrails`. -/
def getTrails (env : Env TrailData) (location : Obj) (s : Store) : Outcome :=
  Trails.lookup location (categoryHandler (Trails.fetch env location) s) env.lookupUp s

/-! ### The categories side by side -/

/-- The five data categories. -/
inductive Category where
  | weather
  | yelp
  | movies
  | meetups
  | trails
  deriving DecidableEq, Repr

/-- The raw record of each category. -/
abbrev Raw : Category → Type
  | .weather => Day
  | .yelp => Business
  | .movies => MovieData
  | .meetups => MeetupData
  | .trails => TrailData

/-- The constructor of each category, run on host `h` with `Date.now()` reading `now`. -/
def normalize (h : Host) (now : Int) : (c : Category) → Raw c → Obj
  | .weather, day => Weather h day
  | .yelp, b => Yelp b
  | .movies, d => Movie d
  | .meetups, d => Meetup h d
  | .trails, d => Trails now d

/-- The insert statement of each category. -/
def Category.saveSQL : Category → InsertSQL
  | .weather => Weather.saveSQL
  | .yelp => Yelp.saveSQL
  | .movies => Movie.saveSQL
  | .meetups => Meetup.saveSQL
  | .trails => Trails.saveSQL

/-- The lookup statement of each category. -/
def Category.lookupSQL : Category → SelectSQL
  | .weather => Weather.lookupSQL
  | .yelp => Yelp.lookupSQL
  | .movies => Movie.lookupSQL
  | .meetups => Meetup.lookupSQL
  | .trails => Trails.lookupSQL

/-- The `fetch` of each category. -/
def Category.fetch (h : Host) : (c : Category) → Env (Raw c) → Obj → Store →
    Except Err (List Obj) × Store
  | .weather => Weather.fetch h
  | .yelp => Yelp.fetch
  | .movies => Movie.fetch
  | .meetups => Meetup.fetch h
  | .trails => Trails.fetch

/-- The route handler of each category. -/
def getCategory (h : Host) : (c : Category) → Env (Raw c) → Obj → Store → Outcome
  | .weather => getWeather h
  | .yelp => getYelp
  | .movies => getMovie
  | .meetups => getMeetup h
  | .trails => getTrails

/-- The store after a sequence of location requests, run one after another. -/
def runLocationRequests : List (Env GeoResult × String) → Store → Store
  | [], s => s
  | (env, q) :: rest, s => runLocationRequests rest (getLocation env q s).store

/-- The number of rows of `locations` whose `search_query` is `v`. -/
def locationRows (s : Store) (v : Val) : Nat :=
  ((s.tables "locations").filter (fun r => r.get "search_query" = v)).length

/-- A host for tests: every date renders as the epoch in UTC. -/
def Host.utcEpoch : Host :=
  ⟨fun _ => "Thu Jan 01 1970 00:00:00 GMT+0000 (Coordinated Universal Time)",
   fun _ => "Thu Jan 01 1970"⟩

/-- The row that an accepted `Weather.prototype.save` writes for the record of `day`. -/
def Weather.row (h : Host) (id : Val) (day : Day) : Obj :=
  [("forecast", sqlParam day.summary),
   ("time", .str (slice (h.dateToString (day.time * 1000)) 15)),
   ("location_id", sqlParam id)]

/-! ## Fixtures -/

/-- A geocoding result for tests. -/
def seattle : GeoResult := ⟨.str "Seattle, WA 98101, USA", .num 47, .num (-122)⟩

/-- The normalized records of a provider answer: the k-th raw record goes through the
    constructor of the category with the k-th clock reading. -/
def normalizeAll (h : Host) (c : Category) (clock : Nat → Int) (raws : List (Raw c)) : List Obj :=
  raws.enum.map (fun p => normalize h (clock p.1) c p.2)

/-- A store for tests: one cached weather row of location 1. -/
def Store.oneWeather : Store :=
  ⟨fun t => if t = "weathers" then
      [[("forecast", .str "Clear"), ("time", .str "Thu Jan 01 1970"), ("location_id", .num 1)]]
    else [], 1⟩

/-- A location object for tests, as a category route receives it. -/
def location1 : Obj :=
  [("search_query", .str "98101"), ("formatted_query", .str "Seattle, WA 98101, USA"),
   ("latitude", .num 47), ("longitude", .num (-122)), ("id", .num 1)]

/-- An environment for tests: the provider answers `rs`, the lookup is answered, every save
    is rejected by the database. -/
def Env.savesRejected {α : Type} (rs : List α) : Env α :=
  ⟨some rs, true, fun _ => false, fun _ => 0⟩

/-- A business for tests. -/
def cafe : Business :=
  ⟨.str "Cafe", .num 4, .str "$$", .str "https://www.yelp.com/biz/cafe", .str "https://img/cafe.jpg"⟩

/-- A trail for tests. -/
def ridge : TrailData :=
  ⟨.str "Ridge", .str "Seattle, Washington", .num 5, .num 4, .num 120, .str "A ridge walk",
    .str "https://www.hikingproject.com/trail/1", .str "All Clear"⟩

/-- A meetup for tests. -/
def jsNight : MeetupData :=
  ⟨.str "https://www.meetup.com/js/events/1", .str "JS night", 0, .str "Seattle JS"⟩

/-! ## Lemmas on the store -/

theorem sqlEq_str (a : Val) (q : String) :
    sqlEq (sqlParam a) (sqlParam (.str q)) = decide (a = .str q) := by
  cases a <;> simp [sqlEq, sqlParam]

theorem select_locations (s : Store) (q : String) :
    s.select Location.lookupSQL (.str q) true
      = .ok ((s.tables "locations").filter (fun r => r.get "search_query" = .str q)) := by
  simp [Store.select, Location.lookupSQL, sqlEq_str]

theorem Location_save_up (q : String) (first : GeoResult) (s : Store) :
    Location.save (Location q first) true s
      = (.ok [[("id", .num s.serial)]],
          ⟨fun t => if t = "locations" then
              s.tables t ++ [[("id", .num s.serial), ("search_query", .str q),
                ("formatted_query", sqlParam first.formatted_address),
                ("latitude", sqlParam first.lat), ("longitude", sqlParam first.lng)]]
            else s.tables t, s.serial + 1⟩) := by
  simp [Location.save, Store.insert, InsertSQL.fits, Location.saveSQL, Location, Obj.values,
    sqlParam]

theorem Location_save_down (o : Obj) (s : Store) :
    Location.save o false s = (.error .storage, s) := by
  simp [Location.save, Store.insert]

theorem fetchLocation_ok (env : Env GeoResult) (q : String) (s : Store)
    (first : GeoResult) (rest : List GeoResult)
    (hprov : env.provider = some (first :: rest)) (hup : env.saveUp 0 = true) :
    Location.fetchLocation env q s
      = (.ok (Location q first ++ [("id", .num s.serial)]),
          (Location.save (Location q first) true s).2) := by
  simp [Location.fetchLocation, hprov, hup, Location_save_up]
  simp [Location, Obj.set, Obj.get]

/-- The store after `getLocation`: untouched, or one row more in `locations`, whose
    `search_query` is the query, written only when no row had that `search_query`. -/
theorem getLocation_store (env : Env GeoResult) (q : String) (s : Store) :
    (getLocation env q s).store = s ∨
    (locationRows s (.str q) = 0 ∧
      ∃ row : Obj, row.get "search_query" = .str q ∧
        (getLocation env q s).store.tables "locations" = s.tables "locations" ++ [row]) := by
  unfold getLocation Location.lookupLocation
  cases hl : env.lookupUp with
  | false => left; simp [Store.select]
  | true =>
    rw [select_locations]
    by_cases hrows : ((s.tables "locations").filter (fun r => r.get "search_query" = .str q)).length > 0
    · left; simp [hrows]
    · have h0 : locationRows s (.str q) = 0 := by
        unfold locationRows; omega
      simp only [hrows, if_false]
      match hp : env.provider with
      | none => left; simp [Location.fetchLocation, hp]
      | some [] => left; simp [Location.fetchLocation, hp]
      | some (first :: rest) =>
        cases hu : env.saveUp 0 with
        | false => left; simp [Location.fetchLocation, hp, hu, Location_save_down]
        | true =>
          right
          refine ⟨h0, [("id", .num s.serial), ("search_query", .str q),
            ("formatted_query", sqlParam first.formatted_address),
            ("latitude", sqlParam first.lat), ("longitude", sqlParam first.lng)], ?_, ?_⟩
          · simp [Obj.get]
          · rw [fetchLocation_ok env q s first rest hp hu, Location_save_up]
            simp

theorem locationRows_append (s s1 : Store) (row : Obj) (v : Val)
    (h : s1.tables "locations" = s.tables "locations" ++ [row]) :
    locationRows s1 v = locationRows s v + (if row.get "search_query" = v then 1 else 0) := by
  unfold locationRows
  rw [h, List.filter_append]
  by_cases hv : row.get "search_query" = v <;> simp [hv, List.filter_cons]

/-- One location request keeps `locations` free of duplicate `search_query` values. -/
theorem getLocation_keeps_unique (env : Env GeoResult) (q : String) (s : Store)
    (h : ∀ v, locationRows s v ≤ 1) : ∀ v, locationRows (getLocation env q s).store v ≤ 1 := by
  intro v
  rcases getLocation_store env q s with hs | ⟨h0, row, hrow, htab⟩
  · rw [hs]; exact h v
  · rw [locationRows_append s _ row v htab, hrow]
    by_cases hv : Val.str q = v
    · subst hv; simp [h0]
    · have := h v
      simp [hv]; exact this

theorem runLocationRequests_keeps_unique (reqs : List (Env GeoResult × String)) :
    ∀ s : Store, (∀ v, locationRows s v ≤ 1) →
      ∀ v, locationRows (runLocationRequests reqs s) v ≤ 1 := by
  induction reqs with
  | nil => intro s h; exact h
  | cons r rest ih =>
    intro s h
    obtain ⟨env, q⟩ := r
    exact ih _ (getLocation_keeps_unique env q s h)

theorem getLocation_hit (env : Env GeoResult) (q : String) (s : Store)
    (hl : env.lookupUp = true) (h : 0 < locationRows s (.str q)) :
    (getLocation env q s).branch = some .cacheHit ∧ (getLocation env q s).providerCalls = 0 ∧
      (getLocation env q s).store = s := by
  unfold locationRows at h
  simp [getLocation, Location.lookupLocation, hl, select_locations, h]

/-! ## The location resolver -/

/-- C2: for every search string `q`, every store and every pair of environments in which the
    database answers the queries of both runs (so it accepts the insert) and the geocoding
    provider returns at least one result, two location requests for `q` run in sequence issue
    at most one geocoding request in total, and the second run takes the `cacheHit` branch
    (with no geocoding request of its own). -/
theorem getLocation_twice_one_call (q : String) (s : Store) (env1 env2 : Env GeoResult)
    (first : GeoResult) (rest : List GeoResult)
    (hprov : env1.provider = some (first :: rest))
    (hl1 : env1.lookupUp = true) (hins : env1.saveUp 0 = true) (hl2 : env2.lookupUp = true) :
    (getLocation env1 q s).providerCalls
        + (getLocation env2 q (getLocation env1 q s).store).providerCalls ≤ 1 ∧
      (getLocation env2 q (getLocation env1 q s).store).branch = some .cacheHit ∧
      (getLocation env2 q (getLocation env1 q s).store).providerCalls = 0 := by
  by_cases h : 0 < locationRows s (.str q)
  · obtain ⟨_, hc1, hs1⟩ := getLocation_hit env1 q s hl1 h
    obtain ⟨hb2, hc2, _⟩ := getLocation_hit env2 q s hl2 h
    rw [hs1, hc1, hc2, hb2]
    simp
  · have hmiss : ¬ ((s.tables "locations").filter
        (fun r => r.get "search_query" = .str q)).length > 0 := by
      unfold locationRows at h; exact h
    have hstore : (getLocation env1 q s).store = (Location.save (Location q first) true s).2 := by
      simp [getLocation, Location.lookupLocation, hl1, select_locations, hmiss,
        fetchLocation_ok env1 q s first rest hprov hins]
    have hcalls : (getLocation env1 q s).providerCalls = 1 := by
      simp [getLocation, Location.lookupLocation, hl1, select_locations, hmiss,
        fetchLocation_ok env1 q s first rest hprov hins]
    have hrows : 0 < locationRows (getLocation env1 q s).store (.str q) := by
      rw [hstore, Location_save_up]
      simp [locationRows, List.filter_cons, Obj.get]
    obtain ⟨hb2, hc2, _⟩ := getLocation_hit env2 q _ hl2 hrows
    rw [hcalls, hc2, hb2]
    simp

theorem getLocation_twice_one_call_witness :
    (Env.answering [seattle]).provider = some (seattle :: []) ∧
    (Env.answering [seattle]).lookupUp = true ∧
    (Env.answering [seattle]).saveUp 0 = true ∧
    ((getLocation (Env.answering [seattle]) "98101" Store.empty).providerCalls
        + (getLocation (Env.answering [seattle]) "98101"
            (getLocation (Env.answering [seattle]) "98101" Store.empty).store).providerCalls ≤ 1 ∧
      (getLocation (Env.answering [seattle]) "98101"
          (getLocation (Env.answering [seattle]) "98101" Store.empty).store).branch
        = some .cacheHit ∧
      (getLocation (Env.answering [seattle]) "98101"
          (getLocation (Env.answering [seattle]) "98101" Store.empty).store).providerCalls = 0) :=
  ⟨rfl, rfl, rfl,
    getLocation_twice_one_call "98101" Store.empty (Env.answering [seattle])
      (Env.answering [seattle]) seattle [] rfl rfl rfl rfl⟩

/-- C4: for every search string `q`, every store (so also one with no row for `q`) and every
    non-empty geocoding result list, when the database accepts the insert,
    `Location.fetchLocation(q)` resolves to the object with `search_query = q`, with
    `formatted_query`, `latitude`, `longitude` taken from the first result, and with the `id`
    that the insert returned; it appends exactly one row to `locations`, carrying that
    `search_query` and that `id`, and leaves every other table as it was. -/
theorem fetchLocation_first_result (env : Env GeoResult) (q : String) (s : Store)
    (first : GeoResult) (rest : List GeoResult)
    (hprov : env.provider = some (first :: rest)) (hup : env.saveUp 0 = true) :
    ∃ id : Val,
      (Location.save (Location q first) (env.saveUp 0) s).1 = .ok [[("id", id)]] ∧
      (Location.fetchLocation env q s).1
        = .ok [("search_query", .str q), ("formatted_query", first.formatted_address),
            ("latitude", first.lat), ("longitude", first.lng), ("id", id)] ∧
      (∃ row : Obj, row.get "search_query" = .str q ∧ row.get "id" = id ∧
        (Location.fetchLocation env q s).2.tables "locations" = s.tables "locations" ++ [row]) ∧
      ∀ t, t ≠ "locations" → (Location.fetchLocation env q s).2.tables t = s.tables t := by
  refine ⟨.num s.serial, ?_, ?_, ?_, ?_⟩
  · rw [hup, Location_save_up]
  · rw [fetchLocation_ok env q s first rest hprov hup]; rfl
  · refine ⟨[("id", .num s.serial), ("search_query", .str q),
      ("formatted_query", sqlParam first.formatted_address),
      ("latitude", sqlParam first.lat), ("longitude", sqlParam first.lng)], ?_, ?_, ?_⟩
    · simp [Obj.get]
    · simp [Obj.get]
    · rw [fetchLocation_ok env q s first rest hprov hup, Location_save_up]
      simp
  · intro t ht
    rw [fetchLocation_ok env q s first rest hprov hup, Location_save_up]
    simp [ht]

theorem fetchLocation_first_result_witness :
    (Env.answering [seattle]).provider = some (seattle :: []) ∧
    (Env.answering [seattle]).saveUp 0 = true ∧
    ∃ id : Val,
      (Location.save (Location "98101" seattle) ((Env.answering [seattle]).saveUp 0)
          Store.empty).1 = .ok [[("id", id)]] ∧
      (Location.fetchLocation (Env.answering [seattle]) "98101" Store.empty).1
        = .ok [("search_query", .str "98101"), ("formatted_query", seattle.formatted_address),
            ("latitude", seattle.lat), ("longitude", seattle.lng), ("id", id)] ∧
      (∃ row : Obj, row.get "search_query" = .str "98101" ∧ row.get "id" = id ∧
        (Location.fetchLocation (Env.answering [seattle]) "98101" Store.empty).2.tables
            "locations" = Store.empty.tables "locations" ++ [row]) ∧
      ∀ t, t ≠ "locations" →
        (Location.fetchLocation (Env.answering [seattle]) "98101" Store.empty).2.tables t
          = Store.empty.tables t :=
  ⟨rfl, rfl, fetchLocation_first_result (Env.answering [seattle]) "98101" Store.empty seattle []
    rfl rfl⟩

/-- C5 at a concrete input: with an empty store and a geocoding provider that returns zero
    results, the chain of `Location.fetchLocation` throws the no-data error, but its catch
    handler names the unbound `res`, so the promise is rejected with a ReferenceError, the
    catch handler of `getLocation` fails the same way, and no response is sent: the caller
    does not get the status 500 answer of `handleError`. -/
theorem getLocation_noData_sends_nothing :
    (Location.fetchLocation (Env.answering []) "nowhere" Store.empty).1
        = .error (.referenceError "res") ∧
      (getLocation (Env.answering []) "nowhere" Store.empty).branch = some .cacheMiss ∧
      (getLocation (Env.answering []) "nowhere" Store.empty).response = none ∧
      (getLocation (Env.answering []) "nowhere" Store.empty).response
        ≠ handleError (some ()) :=
  ⟨rfl, rfl, rfl, by decide⟩

/-- C8: after any finite sequence of location requests run one after another from the empty
    store, whatever the provider and the database answered to each, `locations` holds at
    most one row for each `search_query` value. -/
theorem locations_unique_after_requests (reqs : List (Env GeoResult × String)) (v : Val) :
    locationRows (runLocationRequests reqs Store.empty) v ≤ 1 := by
  apply runLocationRequests_keeps_unique
  intro v
  simp [locationRows, Store.empty]

/-! ## The category orchestrators -/

/-- The records of `mapSave` are the constructor results, in provider order, whatever the
    saves do. -/
theorem mapSave_fst {α : Type} (ctor : Nat → α → Obj) (save : Obj → Val → Bool → Store → Store)
    (id : Val) (up : Nat → Bool) (raws : List α) :
    ∀ (k : Nat) (s : Store),
      (mapSave ctor save id up k raws s).1 = (raws.enumFrom k).map (fun p => ctor p.1 p.2) := by
  induction raws with
  | nil => intro k s; rfl
  | cons data rest ih =>
    intro k s
    simp [mapSave, List.enumFrom, ih]

/-- When no save of the loop changes the store, the loop does not change it. -/
theorem mapSave_snd_of_noop {α : Type} (ctor : Nat → α → Obj)
    (save : Obj → Val → Bool → Store → Store) (id : Val) (up : Nat → Bool)
    (hnoop : ∀ k data b s, save (ctor k data) id b s = s) (raws : List α) :
    ∀ (k : Nat) (s : Store), (mapSave ctor save id up k raws s).2 = s := by
  induction raws with
  | nil => intro k s; rfl
  | cons data rest ih =>
    intro k s
    simp [mapSave, hnoop, ih]

theorem Category_fetch_fst (h : Host) (c : Category) (env : Env (Raw c)) (location : Obj)
    (s : Store) (raws : List (Raw c)) (hprov : env.provider = some raws) :
    (Category.fetch h c env location s).1 = .ok (normalizeAll h c env.clock raws) := by
  cases c <;>
    simp [Category.fetch, Weather.fetch, Yelp.fetch, Movie.fetch, Meetup.fetch, Trails.fetch,
      hprov, mapSave_fst, normalizeAll, normalize, List.enum]

theorem getCategory_miss (h : Host) (c : Category) (env : Env (Raw c)) (location : Obj)
    (s : Store) (hq : s.select c.lookupSQL (location.get "id") env.lookupUp = .ok []) :
    getCategory h c env location s
      = match Category.fetch h c env location s with
        | (.ok results, s1) => ⟨some (.sendList results), s1, 1, some .cacheMiss⟩
        | (.error _, s1) => ⟨none, s1, 1, some .cacheMiss⟩ := by
  cases c <;>
    simp [Category.lookupSQL] at hq <;>
    simp [getCategory, getWeather, getYelp, getMovie, getMeetup, getTrails, Weather.lookup,
      Yelp.lookup, Movie.lookup, Meetup.lookup, Trails.lookup, hq, categoryHandler,
      Category.fetch]

theorem getCategory_hit (h : Host) (c : Category) (env : Env (Raw c)) (location : Obj)
    (s : Store) (rows : List Obj)
    (hq : s.select c.lookupSQL (location.get "id") env.lookupUp = .ok rows) (hne : rows ≠ []) :
    getCategory h c env location s = ⟨some (.sendList rows), s, 0, some .cacheHit⟩ := by
  have hlen : rows.length > 0 := List.length_pos.mpr hne
  cases c <;>
    simp [Category.lookupSQL] at hq <;>
    simp [getCategory, getWeather, getYelp, getMovie, getMeetup, getTrails, Weather.lookup,
      Yelp.lookup, Movie.lookup, Meetup.lookup, Trails.lookup, hq, categoryHandler, hlen]

/-- C7: for every category, location, store and environment, if the lookup query of the
    category returns one or more rows, the request sends exactly those rows (same rows, same
    order), issues no provider request, takes the `cacheHit` branch and leaves the store as it
    was. -/
theorem cacheHit_serves_rows (h : Host) (c : Category) (env : Env (Raw c)) (location : Obj)
    (s : Store) (rows : List Obj)
    (hq : s.select c.lookupSQL (location.get "id") env.lookupUp = .ok rows) (hne : rows ≠ []) :
    (getCategory h c env location s).response = some (.sendList rows) ∧
      (getCategory h c env location s).providerCalls = 0 ∧
      (getCategory h c env location s).branch = some .cacheHit ∧
      (getCategory h c env location s).store = s := by
  rw [getCategory_hit h c env location s rows hq hne]
  exact ⟨rfl, rfl, rfl, rfl⟩

theorem cacheHit_serves_rows_witness :
    Store.oneWeather.select Category.weather.lookupSQL (location1.get "id")
        (Env.answering ([] : List Day)).lookupUp
      = .ok [[("forecast", .str "Clear"), ("time", .str "Thu Jan 01 1970"),
          ("location_id", .num 1)]] ∧
    (getCategory Host.utcEpoch .weather (Env.answering []) location1 Store.oneWeather).response
      = some (.sendList [[("forecast", .str "Clear"), ("time", .str "Thu Jan 01 1970"),
          ("location_id", .num 1)]]) ∧
    (getCategory Host.utcEpoch .weather (Env.answering []) location1
      Store.oneWeather).providerCalls = 0 ∧
    (getCategory Host.utcEpoch .weather (Env.answering []) location1 Store.oneWeather).branch
      = some .cacheHit ∧
    (getCategory Host.utcEpoch .weather (Env.answering []) location1 Store.oneWeather).store
      = Store.oneWeather :=
  ⟨rfl, cacheHit_serves_rows Host.utcEpoch .weather (Env.answering []) location1
    Store.oneWeather _ rfl (by simp)⟩

/-- C6 as stated fails: with one daily entry from the provider and the insert of its record
    rejected by the database, `Weather.fetch` still resolves to the list holding the record
    and `getWeather` sends that list to the caller. -/
theorem weather_save_failure_still_served :
    (Store.empty.insert Weather.saveSQL
        (Obj.values (Weather Host.utcEpoch ⟨.str "Clear", 0⟩) ++ [location1.get "id"]) false).1
      = .error .storage ∧
    (Weather.fetch Host.utcEpoch (Env.savesRejected [⟨.str "Clear", 0⟩]) location1
        Store.empty).1
      = .ok [[("forecast", .str "Clear"), ("time", .str "Thu Jan 01 1970")]] ∧
    (getWeather Host.utcEpoch (Env.savesRejected [⟨.str "Clear", 0⟩]) location1
        Store.empty).response
      = some (.sendList [[("forecast", .str "Clear"), ("time", .str "Thu Jan 01 1970")]]) :=
  ⟨rfl, rfl, rfl⟩

/-- C6 as amended: on the cache-miss path the saves are not waited for. For every category,
    location, store and environment in which the lookup finds no row and the provider returns
    `n` raw records, `fetch` resolves to the list of the `n` normalized records whether the
    store query of any save fails or not, and the caller is sent that list. -/
theorem fetch_ignores_save_failures (h : Host) (c : Category) (env : Env (Raw c))
    (location : Obj) (s : Store) (raws : List (Raw c))
    (hmiss : s.select c.lookupSQL (location.get "id") env.lookupUp = .ok [])
    (hprov : env.provider = some raws) :
    (Category.fetch h c env location s).1 = .ok (normalizeAll h c env.clock raws) ∧
      (normalizeAll h c env.clock raws).length = raws.length ∧
      (getCategory h c env location s).branch = some .cacheMiss ∧
      (getCategory h c env location s).response
        = some (.sendList (normalizeAll h c env.clock raws)) := by
  have hf := Category_fetch_fst h c env location s raws hprov
  refine ⟨hf, by simp [normalizeAll], ?_⟩
  rw [getCategory_miss h c env location s hmiss]
  generalize Category.fetch h c env location s = r at hf
  obtain ⟨r1, r2⟩ := r
  simp at hf
  subst hf
  exact ⟨rfl, rfl⟩

theorem fetch_ignores_save_failures_witness :
    Store.empty.select Category.weather.lookupSQL (location1.get "id")
        (Env.savesRejected ([⟨.str "Clear", 0⟩] : List Day)).lookupUp = .ok [] ∧
    (Env.savesRejected ([⟨.str "Clear", 0⟩] : List Day)).provider = some [⟨.str "Clear", 0⟩] ∧
    (Category.fetch Host.utcEpoch .weather (Env.savesRejected [⟨.str "Clear", 0⟩]) location1
        Store.empty).1
      = .ok (normalizeAll Host.utcEpoch .weather (fun _ => 0) [⟨.str "Clear", 0⟩]) ∧
    (normalizeAll Host.utcEpoch .weather (fun _ => 0) [⟨.str "Clear", 0⟩]).length = 1 ∧
    (getCategory Host.utcEpoch .weather (Env.savesRejected [⟨.str "Clear", 0⟩]) location1
        Store.empty).branch = some .cacheMiss ∧
    (getCategory Host.utcEpoch .weather (Env.savesRejected [⟨.str "Clear", 0⟩]) location1
        Store.empty).response
      = some (.sendList (normalizeAll Host.utcEpoch .weather (fun _ => 0) [⟨.str "Clear", 0⟩])) :=
  ⟨rfl, rfl, fetch_ignores_save_failures Host.utcEpoch .weather
    (Env.savesRejected [⟨.str "Clear", 0⟩]) location1 Store.empty [⟨.str "Clear", 0⟩] rfl rfl⟩

/-! ## Which categories persist their records -/

theorem map_enumFrom_snd {α β : Type} (f : α → β) (l : List α) :
    ∀ k : Nat, (l.enumFrom k).map (fun p => f p.2) = l.map f := by
  induction l with
  | nil => intro k; rfl
  | cons a rest ih => intro k; simp [List.enumFrom, ih]

theorem Weather_save_up (h : Host) (day : Day) (id : Val) (s : Store) :
    Weather.save (Weather h day) id true s
      = ⟨fun t => if t = "weathers" then s.tables t ++ [Weather.row h id day] else s.tables t,
          s.serial⟩ := by
  simp [Weather.save, Store.insert, InsertSQL.fits, Weather.saveSQL, Weather, Obj.values,
    Weather.row, sqlParam]

/-- With every insert accepted, the loop of `Weather.fetch` appends one row per daily entry,
    in provider order. -/
theorem Weather_mapSave_rows (h : Host) (id : Val) (up : Nat → Bool) (hup : ∀ k, up k = true)
    (days : List Day) :
    ∀ (k : Nat) (s : Store),
      (mapSave (fun _ day => Weather h day) Weather.save id up k days s).2.tables "weathers"
        = s.tables "weathers" ++ days.map (Weather.row h id) := by
  induction days with
  | nil => intro k s; simp [mapSave]
  | cons day rest ih =>
    intro k s
    simp [mapSave, hup, ih, Weather_save_up]

/-- The weather orchestrator persists what it fetched: with `n` daily entries from the
    provider and every insert accepted, `Weather.fetch` returns `n` records and `weathers`
    gains exactly the `n` rows of those records. -/
theorem Weather_fetch_persists_all (h : Host) (env : Env Day) (location : Obj) (s : Store)
    (days : List Day) (hprov : env.provider = some days) (hup : ∀ k, env.saveUp k = true) :
    (Weather.fetch h env location s).1 = .ok (days.map (Weather h)) ∧
      (Weather.fetch h env location s).2.tables "weathers"
        = s.tables "weathers" ++ days.map (Weather.row h (location.get "id")) := by
  constructor
  · have := Category_fetch_fst h .weather env location s days hprov
    simp only [Category.fetch] at this
    rw [this]
    simp [normalizeAll, normalize, List.enum, map_enumFrom_snd]
  · simp [Weather.fetch, hprov, Weather_mapSave_rows h _ env.saveUp hup]

/-- A stored weather row is found again by the lookup of its location, and shows the
    `forecast` and `time` of the record it was written from (an absent `forecast` comes back
    as NULL). -/
theorem Weather_row_reread (h : Host) (id : Val) (day : Day)
    (hid : id ≠ .undefined ∧ id ≠ .null) :
    sqlEq (sqlParam ((Weather.row h id day).get Weather.lookupSQL.column)) (sqlParam id) = true ∧
      (Weather.row h id day).get "forecast" = sqlParam ((Weather h day).get "forecast") ∧
      (Weather.row h id day).get "time" = (Weather h day).get "time" := by
  obtain ⟨h1, h2⟩ := hid
  refine ⟨?_, ?_, ?_⟩
  · cases id <;> simp_all [Weather.row, Weather.lookupSQL, Obj.get, sqlEq, sqlParam]
  · simp [Weather.row, Weather, Obj.get]
  · simp [Weather.row, Weather, Obj.get]

/-- The weather cache works: after a miss that fetched at least one daily entry with every
    insert accepted, the next request for the same location takes `cacheHit` and calls no
    provider. -/
theorem getWeather_second_request_hits (h : Host) (env1 env2 : Env Day) (location : Obj)
    (s : Store) (day : Day) (rest : List Day)
    (hid : location.get "id" ≠ .undefined ∧ location.get "id" ≠ .null)
    (hmiss : s.select Weather.lookupSQL (location.get "id") env1.lookupUp = .ok [])
    (hprov : env1.provider = some (day :: rest)) (hup : ∀ k, env1.saveUp k = true)
    (hl2 : env2.lookupUp = true) :
    (getWeather h env2 location (getWeather h env1 location s).store).branch = some .cacheHit ∧
      (getWeather h env2 location (getWeather h env1 location s).store).providerCalls = 0 := by
  have hstore : (getWeather h env1 location s).store = (Weather.fetch h env1 location s).2 := by
    simp [getWeather, Weather.lookup, hmiss, categoryHandler, Weather.fetch, hprov]
  obtain ⟨_, htab⟩ := Weather_fetch_persists_all h env1 location s (day :: rest) hprov hup
  obtain ⟨hre, _, _⟩ := Weather_row_reread h (location.get "id") day hid
  have hrows : ∃ r rs, (getWeather h env1 location s).store.select Weather.lookupSQL
      (location.get "id") true = .ok (r :: rs) := by
    rw [hstore]
    simp only [Store.select, if_true]
    have hsel : Weather.lookupSQL.table = "weathers" := rfl
    rw [hsel, htab]
    cases hf : List.filter (fun r => sqlEq (sqlParam (r.get Weather.lookupSQL.column))
        (sqlParam (location.get "id")))
        (s.tables "weathers" ++ (day :: rest).map (Weather.row h (location.get "id"))) with
    | cons r rs => exact ⟨r, rs, rfl⟩
    | nil =>
      exfalso
      have hmem : Weather.row h (location.get "id") day ∈ List.filter
          (fun r => sqlEq (sqlParam (r.get Weather.lookupSQL.column))
            (sqlParam (location.get "id")))
          (s.tables "weathers" ++ (day :: rest).map (Weather.row h (location.get "id"))) := by
        rw [List.mem_filter]
        exact ⟨by simp, hre⟩
      rw [hf] at hmem
      exact List.not_mem_nil _ hmem
  obtain ⟨r, rs, hsel⟩ := hrows
  have hhit := getCategory_hit h .weather env2 location (getWeather h env1 location s).store
    (r :: rs) (by rw [hl2]; exact hsel) (by simp)
  have hout : getWeather h env2 location (getWeather h env1 location s).store
      = ⟨some (.sendList (r :: rs)), (getWeather h env1 location s).store, 0,
          some .cacheHit⟩ := hhit
  rw [hout]
  exact ⟨rfl, rfl⟩

/-- The other four orchestrators persist nothing: the statement of their `save` never fits
    the values it is given, so `fetch` leaves the store exactly as it was. -/
theorem fetch_store_unchanged (h : Host) (c : Category) (hc : c ≠ .weather)
    (env : Env (Raw c)) (location : Obj) (s : Store) :
    (Category.fetch h c env location s).2 = s := by
  cases c with
  | weather => exact absurd rfl hc
  | yelp =>
    cases hp : env.provider with
    | none => simp [Category.fetch, Yelp.fetch, hp]
    | some raws =>
      simp only [Category.fetch, Yelp.fetch, hp]
      apply mapSave_snd_of_noop
      intro k data b s
      simp [Yelp.save, Store.insert, InsertSQL.fits, Yelp.saveSQL, Yelp, Obj.values]
  | movies =>
    cases hp : env.provider with
    | none => simp [Category.fetch, Movie.fetch, hp]
    | some raws =>
      simp only [Category.fetch, Movie.fetch, hp]
      apply mapSave_snd_of_noop
      intro k data b s
      simp [Movie.save, Store.insert, InsertSQL.fits, Movie.saveSQL, Movie, Obj.values]
  | meetups =>
    cases hp : env.provider with
    | none => simp [Category.fetch, Meetup.fetch, hp]
    | some raws =>
      simp only [Category.fetch, Meetup.fetch, hp]
      apply mapSave_snd_of_noop
      intro k data b s
      simp [Meetup.save, Store.insert, InsertSQL.fits, Meetup.saveSQL, Meetup, Obj.values]
  | trails =>
    cases hp : env.provider with
    | none => simp [Category.fetch, Trails.fetch, hp]
    | some raws =>
      simp only [Category.fetch, Trails.fetch, hp]
      apply mapSave_snd_of_noop
      intro k data b s
      simp [Trails.save, Store.insert, InsertSQL.fits, Trails.saveSQL, Trails, Obj.values]

/-! ## Persistence of the category records -/

/-- C1 at a concrete input: location 1 has no yelp rows, the first `getYelp` misses and the
    provider returns one business; its insert carries six parameters for five placeholders
    and is rejected, so the second `getYelp` for the same location finds no row, takes the
    `cacheMiss` branch and calls the provider again. -/
theorem yelp_second_request_misses :
    (getYelp (Env.answering [cafe]) location1 Store.empty).branch = some .cacheMiss ∧
    (getYelp (Env.answering [cafe]) location1 Store.empty).response
      = some (.sendList [Yelp cafe]) ∧
    (getYelp (Env.answering [cafe]) location1
        (getYelp (Env.answering [cafe]) location1 Store.empty).store).branch
      = some .cacheMiss ∧
    (getYelp (Env.answering [cafe]) location1
        (getYelp (Env.answering [cafe]) location1 Store.empty).store).providerCalls = 1 :=
  ⟨rfl, rfl, rfl, rfl⟩

/-- C3 at a concrete input: `Trails.fetch` on an empty store with one trail from the provider
    returns a list of length 1, but its insert names seven columns for ten values and is
    rejected, so `trails` holds no row afterwards. -/
theorem trails_fetch_persists_nothing :
    (Trails.fetch (Env.answering [ridge]) location1 Store.empty).1
      = .ok [Trails 0 ridge] ∧
    Trails.saveSQL.fits (Obj.values (Trails 0 ridge) ++ [location1.get "id"]) = false ∧
    ((Trails.fetch (Env.answering [ridge]) location1 Store.empty).2.tables "trails").length
      = 0 :=
  ⟨rfl, rfl, rfl⟩

/-- C9 at a concrete input: the record built by `Meetup` and handed to `Meetup.save` for
    location 1 is never stored (five parameters for four placeholders), so the lookup of
    `Meetup.lookup` for location 1 re-reads no row at all. -/
theorem meetup_record_not_reread :
    Meetup.saveSQL.fits (Obj.values (Meetup Host.utcEpoch jsNight) ++ [location1.get "id"])
      = false ∧
    (Meetup.save (Meetup Host.utcEpoch jsNight) (location1.get "id") true Store.empty).tables
        "meetups" = [] ∧
    (Meetup.save (Meetup Host.utcEpoch jsNight) (location1.get "id") true Store.empty).select
        Meetup.lookupSQL (location1.get "id") true = .ok [] :=
  ⟨rfl, rfl, rfl⟩

/-! ## The normalizers -/

/-- C10 as stated fails: two runs of the `Trails` constructor on the same raw record, with
    `Date.now()` reading 0 and then 1, give records that differ in `created_at`. -/
theorem Trails_reads_the_clock :
    (normalize Host.utcEpoch 0 .trails ridge).get "created_at"
      ≠ (normalize Host.utcEpoch 1 .trails ridge).get "created_at" := by
  decide

/-- C10 as amended: on one host, the `Weather`, `Yelp`, `Movie` and `Meetup` constructors
    give equal records on equal raw records whatever the clock reads; two runs of the
    `Trails` constructor on the same raw record agree on every field other than `created_at`,
    and `created_at` is the reading of `Date.now()` at construction. -/
theorem normalize_clock (h : Host) (now1 now2 : Int) :
    (∀ day : Raw .weather, normalize h now1 .weather day = normalize h now2 .weather day) ∧
    (∀ b : Raw .yelp, normalize h now1 .yelp b = normalize h now2 .yelp b) ∧
    (∀ d : Raw .movies, normalize h now1 .movies d = normalize h now2 .movies d) ∧
    (∀ d : Raw .meetups, normalize h now1 .meetups d = normalize h now2 .meetups d) ∧
    (∀ d : Raw .trails,
      (normalize h now1 .trails d).filter (fun p => p.1 ≠ "created_at")
        = (normalize h now2 .trails d).filter (fun p => p.1 ≠ "created_at") ∧
      (normalize h now1 .trails d).get "created_at" = .num now1) := by
  refine ⟨fun _ => rfl, fun _ => rfl, fun _ => rfl, fun _ => rfl, fun d => ⟨?_, ?_⟩⟩
  · simp [normalize, Trails, List.filter_cons]
  · simp [normalize, Trails, Obj.get]

end Server
